import Mathlib

/-!
# Verification of the spt-converter conversion subsystem

Shallow embedding of the conversion state machine, credit ledger, webhook
ingress, retry, progress estimator and client polling coordinator of the
`spt-converter` repository, together with proofs settling the spec claims.

Source files embedded:
* `src/lib/supabase/users.ts` (`updateUserCredits`)
* `src/app/api/webhooks/n8n/route.ts` (`verifyWebhookSignature`, `POST`)
* `src/app/api/convert/route.ts` (`POST`)
* `src/lib/supabase/conversions-client.ts` (`retryConversion`)
* status endpoints (single and batch `GET`, progress computation)
* the zustand conversion store (polling coordinator)
-/

/-! ## Credit ledger (`src/lib/supabase/users.ts`, `updateUserCredits`) -/

/-- Error outcomes of `updateUserCredits`: the explicit insufficient-credits
throw (users.ts line 81) and the thrown error when the conditional update
matched no row because the balance changed between read and write
(users.ts lines 96-105). -/
inductive CreditError
  | insufficientCredits
  | concurrentModification
deriving DecidableEq, Repr

/-- One `credit_change` audit row inserted into `usage_analytics`
(users.ts lines 110-123): metadata fields `credit_delta`, `credits_before`,
`credits_after`, `reason`. -/
structure AuditRow where
  creditDelta : Int
  creditsBefore : Int
  creditsAfter : Int
  reason : String
deriving DecidableEq, Repr

/-- The durable state owned by the ledger for one user: the stored
`credits_remaining` value of the `user_profiles` row and the append-only
list of `credit_change` audit rows. The DB column is a plain INTEGER, so
the balance is modelled as `Int` (non-negativity is a property to prove,
not a typing assumption). -/
structure CreditState where
  balance : Int
  audit : List AuditRow
deriving DecidableEq, Repr

/-- `newCredits = Math.max(0, currentCredits + creditDelta)` (users.ts line 73). -/
def newCreditsOf (current delta : Int) : Int := max 0 (current + delta)

/-- `updateUserCredits` (users.ts lines 53-130). `current` is the balance
returned by the initial read (line 59); `s` is the durable state at the
time of the conditional write, which a concurrent adjustment may have
changed in between. The write is conditioned on
`.eq('credits_remaining', currentCredits)` (line 92): it succeeds only if
the stored balance still equals `current`, otherwise the call throws.
On success the audit row is appended (its own failure is swallowed by the
source and is not modelled). The pair returns the call result together
with the durable state after the call. -/
def updateUserCredits (reason : String) (delta : Int) (current : Int) (s : CreditState) :
    Except CreditError Int × CreditState :=
  let newCredits := newCreditsOf current delta
  if delta < 0 ∧ current + delta < 0 then
    (Except.error CreditError.insufficientCredits, s)
  else if s.balance = current then
    (Except.ok newCredits,
      { balance := newCredits,
        audit := s.audit ++ [{ creditDelta := delta, creditsBefore := current,
                               creditsAfter := newCredits, reason := reason }] })
  else
    (Except.error CreditError.concurrentModification, s)

/-- A sequential (uncontended) run of `updateUserCredits`: the balance read
is the stored balance itself. This is the view of the callers inside one
request handler. -/
def adjust (delta : Int) (reason : String) (s : CreditState) :
    Except CreditError Int × CreditState :=
  updateUserCredits reason delta s.balance s

/-- C1: `updateUserCredits` reads the current balance, computes
`new = max(0, current + delta)`, and writes it back conditioned on the
stored balance still equaling the value just read; when that condition
fails because of a concurrent adjustment the call errors with
`ConcurrentModification` and leaves the stored state untouched — the two
concurrent deltas are never merged into one write. -/
theorem C1_updateUserCredits_optimistic_lock
    (delta current : Int) (reason : String) (s : CreditState)
    (hfeasible : ¬ (delta < 0 ∧ current + delta < 0)) :
    (s.balance = current →
      updateUserCredits reason delta current s =
        (Except.ok (newCreditsOf current delta),
         { balance := newCreditsOf current delta,
           audit := s.audit ++ [{ creditDelta := delta, creditsBefore := current,
                                  creditsAfter := newCreditsOf current delta,
                                  reason := reason }] })) ∧
    (s.balance ≠ current →
      updateUserCredits reason delta current s =
        (Except.error CreditError.concurrentModification, s)) := by
  constructor
  · intro heq
    simp [updateUserCredits, hfeasible, heq]
  · intro hne
    simp [updateUserCredits, hfeasible, hne]

/-- Witness for C1 at a concrete input: balance read `5`, stored balance
meanwhile changed to `3`; the call fails with `ConcurrentModification`
and writes nothing. -/
theorem C1_witness :
    updateUserCredits "conversion_started" (-1) 5 { balance := 3, audit := [] } =
      (Except.error CreditError.concurrentModification, { balance := 3, audit := [] }) :=
  (C1_updateUserCredits_optimistic_lock (-1) 5 "conversion_started"
      { balance := 3, audit := [] } (by decide)).2 (by decide)

/-- C4: when `delta < 0` and `current + delta < 0`, `updateUserCredits`
fails with `InsufficientCredits` and performs no write (the stored state
is exactly what it was before the call); moreover no ledger call ever
persists a negative balance: starting from a non-negative stored balance,
the balance after any `updateUserCredits` call is non-negative. -/
theorem C4_insufficient_no_write
    (delta current : Int) (reason : String) (s : CreditState)
    (hpos : 0 ≤ s.balance) :
    (delta < 0 ∧ current + delta < 0 →
      updateUserCredits reason delta current s =
        (Except.error CreditError.insufficientCredits, s)) ∧
    0 ≤ (updateUserCredits reason delta current s).2.balance := by
  constructor
  · intro h
    simp [updateUserCredits, h]
  · unfold updateUserCredits
    split
    · exact hpos
    · split
      · simp [newCreditsOf]
      · exact hpos

/-- Witness for C4 at a concrete input: balance `0`, delta `-1` → the call
errors with `InsufficientCredits`, the state is unchanged and the balance
stays non-negative. -/
theorem C4_witness :
    updateUserCredits "conversion_started" (-1) 0 { balance := 0, audit := [] } =
      (Except.error CreditError.insufficientCredits, { balance := 0, audit := [] }) ∧
    0 ≤ (updateUserCredits "conversion_started" (-1) 0
          { balance := 0, audit := [] }).2.balance := by
  have h := C4_insufficient_no_write (-1) 0 "conversion_started"
    { balance := 0, audit := [] } (by decide)
  exact ⟨h.1 (by decide), h.2⟩

/-! ## Durable server state: conversions and analytics -/

/-- A row of the `conversions` table, restricted to the fields the embedded
handlers read or write. `status` is the TEXT column
(`pending | processing | completed | failed`); timestamps are abstract
`Nat` instants. -/
structure Conversion where
  id : String
  userId : String
  status : String
  errorMessage : Option String
  downloadUrl : Option String
  createdAt : Nat
  updatedAt : Nat
  startedAt : Option Nat
  completedAt : Option Nat
  originalFilename : String
  fileSize : Nat
deriving DecidableEq, Repr

/-- A `usage_analytics` row as inserted by `trackEvent`
(`src/lib/supabase/conversions.ts`); the free-form JSON metadata is not
modelled (no claim depends on its contents, only on row counts and event
types). -/
structure AnalyticsEvent where
  userId : String
  eventType : String
  conversionId : Option String
deriving DecidableEq, Repr

/-- The durable store as seen by one request handler: the `conversions`
table, the `usage_analytics` table, and the profile row (balance plus
credit audit trail) of the single user the claims are about. -/
structure ServerState where
  conversions : List Conversion
  analytics : List AnalyticsEvent
  credits : CreditState
deriving DecidableEq, Repr

/-- `select * from conversions where id = ... single()`. -/
def findConversion (id : String) (l : List Conversion) : Option Conversion :=
  l.find? (fun c => c.id == id)

/-- `update conversions set ... where id = ...`: applies `f` to every row
whose `id` matches. -/
def updateById (id : String) (f : Conversion → Conversion) (l : List Conversion) :
    List Conversion :=
  l.map (fun c => if c.id == id then f c else c)

/-- JavaScript `x || d` on an optional string: the default replaces both a
missing field and an empty string (both falsy). -/
def jsOr (x : Option String) (d : String) : String :=
  match x with
  | some v => if v = "" then d else v
  | none => d

/-! ## Webhook ingress (`src/app/api/webhooks/n8n/route.ts`) -/

/-- `crypto.timingSafeEqual` on the UTF-8 buffers of two strings: compares
byte-for-byte when the lengths agree and THROWS
(`ERR_CRYPTO_TIMING_SAFE_EQUAL_LENGTH`) when they differ. The throw is
modelled as `Except.error`. -/
def timingSafeEqual (a b : String) : Except Unit Bool :=
  if a.length = b.length then Except.ok (a == b) else Except.error ()

/-- `verifyWebhookSignature` (route.ts lines 24-36): returns `false` when
the signature header or the secret is empty, otherwise compares the header
against the hex HMAC-SHA256 of the raw body with `timingSafeEqual`. The
HMAC computation itself is an external library call and is passed in as
the function `hmacHex : secret → body → hex digest`. -/
def verifyWebhookSignature (hmacHex : String → String → String)
    (payload signature secret : String) : Except Unit Bool :=
  if signature = "" ∨ secret = "" then Except.ok false
  else timingSafeEqual signature (hmacHex secret payload)

/-- The parsed webhook body (`N8NWebhookPayload`, route.ts lines 9-21).
`conversionId` and `status` are `""` when the JSON field is absent or
empty (both falsy for the line 68 check). -/
structure N8NWebhookPayload where
  conversionId : String
  status : String
  downloadUrl : Option String
  error : Option String
  secret : Option String
deriving DecidableEq, Repr

/-- The possible responses of the webhook `POST` handler, tagged by the
error code of the JSON body. -/
inductive WebhookResponse
  | invalidSignature
  | invalidPayload
  | missingFields
  | invalidSecret
  | notFound
  | success (conversionId : String) (status : String)
  | internalError
deriving DecidableEq, Repr

/-- HTTP status code of each webhook response (route.ts response literals). -/
def webhookStatusCode : WebhookResponse → Nat
  | WebhookResponse.invalidSignature => 401
  | WebhookResponse.invalidPayload => 400
  | WebhookResponse.missingFields => 400
  | WebhookResponse.invalidSecret => 401
  | WebhookResponse.notFound => 404
  | WebhookResponse.success _ _ => 200
  | WebhookResponse.internalError => 500

/-- The `updateData` applied to the conversion row (route.ts lines
101-122): stamps `completed_at` and `updated_at` with the current time and
writes the payload status unconditionally; `completed` sets the download
URL (defaulting via `||`) and clears the error, `failed` stores the error
message (defaulting via `||`) and clears the download URL. -/
def applyWebhookUpdate (p : N8NWebhookPayload) (now : Nat) (c : Conversion) : Conversion :=
  let base : Conversion :=
    { c with status := p.status, completedAt := some now, updatedAt := now }
  if p.status = "completed" then
    { base with downloadUrl := some (jsOr p.downloadUrl ("/api/download/" ++ p.conversionId)),
                errorMessage := none }
  else if p.status = "failed" then
    { base with errorMessage := some (jsOr p.error "Conversion failed during processing"),
                downloadUrl := none }
  else base

/-- The store-mutating tail of the webhook handler (route.ts lines 87-176):
look up the conversion (404 when absent), apply `updateData`, append the
`trackEvent` analytics row when the conversion has a user, and return 200.
The handler never touches the credit ledger. The 500 path for a failed DB
update is not modelled (the store is assumed reachable), and the
best-effort `trackEvent` is modelled as succeeding. -/
def webhookApplyUpdate (p : N8NWebhookPayload) (now : Nat) (s : ServerState) :
    WebhookResponse × ServerState :=
  match findConversion p.conversionId s.conversions with
  | none => (WebhookResponse.notFound, s)
  | some c =>
    let conversions := updateById p.conversionId (applyWebhookUpdate p now) s.conversions
    let analytics :=
      if c.userId = "" then s.analytics
      else s.analytics ++
        [{ userId := c.userId,
           eventType := if p.status = "completed" then "conversion_success"
                        else "conversion_failed",
           conversionId := some p.conversionId }]
    (WebhookResponse.success p.conversionId p.status,
     { s with conversions := conversions, analytics := analytics })

/-- The webhook `POST` handler (route.ts lines 38-190). `secretConfig` is
`N8N_WEBHOOK_SECRET` (`none` when unset or empty, both falsy for the
line 45 guard); `parse` is `JSON.parse` plus field extraction (`none` on a
parse error); `signature` is the `x-webhook-signature` header coalesced to
`""`. The whole body runs inside `try/catch`, so a throw inside signature
verification (length-mismatched buffers in `timingSafeEqual`) surfaces as
the catch-all 500 response, not as 401. -/
def webhookPOST (secretConfig : Option String) (hmacHex : String → String → String)
    (parse : String → Option N8NWebhookPayload) (now : Nat)
    (rawBody signature : String) (s : ServerState) : WebhookResponse × ServerState :=
  let afterSig : WebhookResponse × ServerState :=
    match parse rawBody with
    | none => (WebhookResponse.invalidPayload, s)
    | some p =>
      if p.conversionId = "" ∨ p.status = "" then (WebhookResponse.missingFields, s)
      else
        match secretConfig with
        | some sec =>
          if p.secret ≠ some sec then (WebhookResponse.invalidSecret, s)
          else webhookApplyUpdate p now s
        | none => webhookApplyUpdate p now s
  match secretConfig with
  | some sec =>
    match verifyWebhookSignature hmacHex rawBody signature sec with
    | Except.error _ => (WebhookResponse.internalError, s)
    | Except.ok false => (WebhookResponse.invalidSignature, s)
    | Except.ok true => afterSig
  | none => afterSig

/-! ## Submission (`src/app/api/convert/route.ts`, `POST`) -/

/-- The responses of the convert `POST` handler relevant to the claims. -/
inductive ConvertResponse
  | insufficientCredits
  | processingFailed
  | success (conversionId : String)
  | internalError
deriving DecidableEq, Repr

/-- The core of the convert `POST` handler (route.ts lines 63-245), after
authentication and file validation. `webhookUrlConfigured` is whether
`N8N_WEBHOOK_URL` is set; `dispatchOk` is whether the external dispatch
`fetch` succeeded with a 2xx response (`dispatchErrMsg` the error text
otherwise); `convId` is the id the store assigns to the new row.
Flow: reject 403 without credits (`checkUserLimits` line 65); create the
`pending` record; `trackEvent('conversion_start')`; deduct one credit via
`updateUserCredits(-1, 'conversion_started')`; dispatch. A failed dispatch
moves the record to `failed` (with `error_message` and `completed_at`),
refunds one credit via `updateUserCredits(+1, 'conversion_failed_refund')`
and returns 500, all within the same request. A ledger throw escapes to
the outer catch (500). The no-URL development fallback takes the success
path to `processing` (its delayed fake completion is a stub and is not
modelled). -/
def markProcessing (now : Nat) (c : Conversion) : Conversion :=
  { c with status := "processing", startedAt := some now }

/-- The row update of the dispatch-failure path (route.ts lines 183-190):
`status = 'failed'`, the dispatch error stored in `error_message`,
`completed_at` stamped. -/
def markDispatchFailed (dispatchErrMsg : String) (now : Nat) (c : Conversion) : Conversion :=
  { c with status := "failed",
           errorMessage := some ("Failed to start processing: " ++ dispatchErrMsg),
           completedAt := some now }

def convertPOST (webhookUrlConfigured dispatchOk : Bool) (dispatchErrMsg : String)
    (userId originalFilename : String) (fileSize : Nat) (convId : String) (now : Nat)
    (s : ServerState) : ConvertResponse × ServerState :=
  if ¬ (0 < s.credits.balance) then (ConvertResponse.insufficientCredits, s)
  else
    let conv : Conversion :=
      { id := convId, userId := userId, status := "pending", errorMessage := none,
        downloadUrl := none, createdAt := now, updatedAt := now, startedAt := none,
        completedAt := none, originalFilename := originalFilename, fileSize := fileSize }
    let s1 : ServerState :=
      { s with conversions := s.conversions ++ [conv],
               analytics := s.analytics ++
                 [{ userId := userId, eventType := "conversion_start",
                    conversionId := some convId }] }
    match adjust (-1) "conversion_started" s1.credits with
    | (Except.error _, _) => (ConvertResponse.internalError, s1)
    | (Except.ok _, cs1) =>
      let s2 : ServerState := { s1 with credits := cs1 }
      if webhookUrlConfigured then
        if dispatchOk then
          (ConvertResponse.success convId,
           { s2 with conversions := updateById convId (markProcessing now) s2.conversions })
        else
          let s3 : ServerState :=
            { s2 with conversions :=
                updateById convId (markDispatchFailed dispatchErrMsg now) s2.conversions }
          match adjust 1 "conversion_failed_refund" s3.credits with
          | (Except.ok _, cs2) => (ConvertResponse.processingFailed, { s3 with credits := cs2 })
          | (Except.error _, _) => (ConvertResponse.internalError, s3)
      else
        (ConvertResponse.success convId,
         { s2 with conversions := updateById convId (markProcessing now) s2.conversions })

/-! ## Retry (`src/lib/supabase/conversions-client.ts`, `retryConversion`) -/

/-- The throw sites of `retryConversion` (conversions-client.ts lines
234-287), in source order. -/
inductive RetryError
  | fetchError
  | notFailed
  | noUser
  | insufficientCredits
deriving DecidableEq, Repr

/-- The row update of a successful retry (conversions-client.ts lines
272-281): `status = 'pending'`, `error_message = null`, `updated_at`
stamped. -/
def markRetried (now : Nat) (c : Conversion) : Conversion :=
  { c with status := "pending", errorMessage := none, updatedAt := now }

/-- `retryConversion` (conversions-client.ts lines 234-287): fetch the
conversion; only `failed` ones may be retried; the conversion must have a
user; the owner must have at least one credit
(`(profile.credits_remaining || 0) < 1` throws); then the row is reset to
`pending` with the error message cleared and `updated_at` stamped. No
credit is deducted or otherwise mutated. -/
def retryConversion (id : String) (now : Nat) (s : ServerState) :
    Except RetryError Conversion × ServerState :=
  match findConversion id s.conversions with
  | none => (Except.error RetryError.fetchError, s)
  | some c =>
    if c.status ≠ "failed" then (Except.error RetryError.notFailed, s)
    else if c.userId = "" then (Except.error RetryError.noUser, s)
    else if s.credits.balance < 1 then (Except.error RetryError.insufficientCredits, s)
    else
      (Except.ok (markRetried now c),
       { s with conversions := updateById id (markRetried now) s.conversions })

/-! ## Progress estimation (status endpoints) -/

/-- Estimated total processing time of the single-status endpoint
(`GET /api/status/[id]`): `max(30000, 30000 + log10(fileSizeMB + 1) * 15000)`.
The logarithm of the file size is an external `Math.log10` value and enters
as the already-scaled term `logTerm = log10(fileSizeMB + 1) * 15000`; for a
fixed file size it is a fixed rational. -/
def estimatedTotal1 (logTerm : ℚ) : ℚ := max 30000 (30000 + logTerm)

/-- Progress of the single-status endpoint while `processing`:
`Math.floor(Math.min(elapsed / estimatedTotal, 0.95) * 100)`. -/
def progress1 (elapsed logTerm : ℚ) : ℤ :=
  Int.floor (min (elapsed / estimatedTotal1 logTerm) (95 / 100) * 100)

/-- Estimated total processing time of the batch-status endpoint
(`GET /api/status/batch`): `Math.max(30000, fileSize / 1000000 * 30000)`
where `fileSize` is the `file_size || 1000000` coalesced value. -/
def estimatedTotal2 (fileSize : ℚ) : ℚ := max 30000 (fileSize / 1000000 * 30000)

/-- Progress of the batch-status endpoint while `processing`:
`Math.round(Math.min(95, Math.max(10, processingTime / estimatedTotal * 80 + 10)))`
(JavaScript `Math.round` is floor of `x + 1/2`, as is Mathlib `round`). -/
def progress2 (processingTime fileSize : ℚ) : ℤ :=
  round (min 95 (max 10 (processingTime / estimatedTotal2 fileSize * 80 + 10)))

/-! ## Client polling coordinator (zustand conversion store) -/

/-- The polling-related slice of the zustand store state: the
`activePolling` id set and the shared `pollingManager` interval handle
(`none` when no timer is installed; timer handles are abstract `Nat`s). -/
structure PollState where
  activePolling : Finset String
  pollingManager : Option Nat
deriving DecidableEq

/-- `startPolling(conversionIds)`: adds the ids to the active set, clears
any existing interval and unconditionally installs a fresh one
(`newTimer`). -/
def startPolling (ids : List String) (newTimer : Nat) (s : PollState) : PollState :=
  { activePolling := ids.foldl (fun a i => insert i a) s.activePolling,
    pollingManager := some newTimer }

/-- `stopPolling(conversionId?)`: removes the id (or clears the whole set
when no id is given); if the set is left empty and a manager is installed,
the interval is cleared and the manager set to `null`. -/
def stopPolling (target : Option String) (s : PollState) : PollState :=
  let a : Finset String :=
    match target with
    | some id => s.activePolling.erase id
    | none => ∅
  if a = ∅ ∧ s.pollingManager ≠ none then
    { activePolling := a, pollingManager := none }
  else
    { activePolling := a, pollingManager := s.pollingManager }

/-- The polling-relevant effect of the store's `removeConversion(id)`: the
id is deleted from `activePolling` (along with the row and its
loading/error entries, not modelled) — the polling manager is NOT
touched. -/
def removeConversion (id : String) (s : PollState) : PollState :=
  { s with activePolling := s.activePolling.erase id }

/-- `conversion.status === 'completed' || conversion.status === 'failed'`. -/
def isTerminal (st : String) : Bool := st == "completed" || st == "failed"

/-- `refreshActiveConversions`: no-op when the active set is empty or the
throttle (`now - lastBatchFetch < MIN_POLLING_INTERVAL`, flag `tooSoon`)
hits; otherwise each fetched snapshot (id, status) with a terminal status
triggers `stopPolling(id)`. A fetch error leaves the state unchanged
(also covered by `tooSoon = true` or an empty `fetched` list). -/
def refreshActiveConversions (fetched : List (String × String)) (tooSoon : Bool)
    (s : PollState) : PollState :=
  if s.activePolling = ∅ then s
  else if tooSoon then s
  else fetched.foldl
    (fun st c => if isTerminal c.2 then stopPolling (some c.1) st else st) s

/-! ## Helper lemmas about the store operations -/

/-- `applyWebhookUpdate` never changes the row id. -/
theorem applyWebhookUpdate_id (p : N8NWebhookPayload) (now : Nat) (c : Conversion) :
    (applyWebhookUpdate p now c).id = c.id := by
  unfold applyWebhookUpdate
  split_ifs <;> rfl

/-- `applyWebhookUpdate` always stamps `completed_at` with the current time. -/
theorem applyWebhookUpdate_completedAt (p : N8NWebhookPayload) (now : Nat) (c : Conversion) :
    (applyWebhookUpdate p now c).completedAt = some now := by
  unfold applyWebhookUpdate
  split_ifs <;> rfl

/-- An id-targeted update leaves a list without that id unchanged. -/
theorem updateById_of_forall_ne (i : String) (f : Conversion → Conversion)
    (l : List Conversion) (h : ∀ c ∈ l, ¬ c.id = i) : updateById i f l = l := by
  induction l with
  | nil => rfl
  | cons x xs ih =>
    have hx : ¬ x.id = i := h x (List.mem_cons_self x xs)
    have ihh := ih (fun c hc => h c (List.mem_cons_of_mem _ hc))
    simp [updateById, hx] at ihh ⊢
    exact ihh

/-- Looking up an id after an update targeting that id returns the updated
row, provided the update preserves ids. -/
theorem findConversion_updateById (i : String) (f : Conversion → Conversion)
    (hf : ∀ c, (f c).id = c.id) (l : List Conversion) :
    findConversion i (updateById i f l) = (findConversion i l).map f := by
  induction l with
  | nil => rfl
  | cons x xs ih =>
    by_cases hx : x.id = i
    · simp [findConversion, updateById, List.find?_cons, hf, hx]
    · simp only [findConversion, updateById, List.map_cons] at ih ⊢
      rw [if_neg (by simpa using hx)]
      rw [List.find?_cons, List.find?_cons]
      have hbx : (x.id == i) = false := by simpa using hx
      rw [hbx]
      simpa using ih

/-- Lookup skips a prefix that does not contain the id. -/
theorem findConversion_append (i : String) (l l2 : List Conversion)
    (h : findConversion i l = none) :
    findConversion i (l ++ l2) = findConversion i l2 := by
  unfold findConversion at h ⊢
  rw [List.find?_append, h, Option.none_or]

/-- Id-targeted updates distribute over append. -/
theorem updateById_append (i : String) (f : Conversion → Conversion)
    (l l2 : List Conversion) :
    updateById i f (l ++ l2) = updateById i f l ++ updateById i f l2 := by
  simp [updateById]

/-- A successful sequential ledger adjustment: when the deduction is
feasible, `adjust` succeeds and appends the audit row. -/
theorem adjust_ok (delta : Int) (reason : String) (s : CreditState)
    (h : ¬ (delta < 0 ∧ s.balance + delta < 0)) :
    adjust delta reason s =
      (Except.ok (newCreditsOf s.balance delta),
       { balance := newCreditsOf s.balance delta,
         audit := s.audit ++ [{ creditDelta := delta, creditsBefore := s.balance,
                                creditsAfter := newCreditsOf s.balance delta,
                                reason := reason }] }) := by
  simp [adjust, updateUserCredits, h]

/-- When the sum stays non-negative, the `Math.max` clamp is the identity. -/
theorem newCreditsOf_of_nonneg (current delta : Int) (h : 0 ≤ current + delta) :
    newCreditsOf current delta = current + delta := max_eq_right h

/-! ## Claims about the webhook ingress -/

/-- C10: when no webhook shared secret is configured, the handler performs
neither the HMAC check nor the payload-secret check: whatever the
signature header says, a well-formed payload naming an existing
conversion is applied to that conversion and acknowledged with 200,
without any authentication. -/
theorem C10_no_secret_skips_auth
    (hmacHex : String → String → String) (parse : String → Option N8NWebhookPayload)
    (now : Nat) (rawBody signature : String) (s : ServerState)
    (p : N8NWebhookPayload) (c : Conversion)
    (hparse : parse rawBody = some p)
    (hcid : p.conversionId ≠ "") (hst : p.status ≠ "")
    (hfind : findConversion p.conversionId s.conversions = some c) :
    webhookPOST none hmacHex parse now rawBody signature s = webhookApplyUpdate p now s ∧
    (webhookPOST none hmacHex parse now rawBody signature s).1 =
      WebhookResponse.success p.conversionId p.status ∧
    findConversion p.conversionId
        (webhookPOST none hmacHex parse now rawBody signature s).2.conversions =
      some (applyWebhookUpdate p now c) := by
  have h1 : webhookPOST none hmacHex parse now rawBody signature s =
      webhookApplyUpdate p now s := by
    simp [webhookPOST, hparse, hcid, hst]
  have h2 : (webhookApplyUpdate p now s).1 =
      WebhookResponse.success p.conversionId p.status := by
    simp [webhookApplyUpdate, hfind]
  have h3 : (webhookApplyUpdate p now s).2.conversions =
      updateById p.conversionId (applyWebhookUpdate p now) s.conversions := by
    simp [webhookApplyUpdate, hfind]
  refine ⟨h1, h1 ▸ h2, ?_⟩
  rw [h1, h3, findConversion_updateById _ _ (applyWebhookUpdate_id p now), hfind]
  rfl

/-- Witness for C10 at a concrete input: no secret configured, arbitrary
(non-matching) signature header, payload applied to the one existing
conversion and acknowledged with success. -/
theorem C10_witness :
    (webhookPOST none (fun _ _ => "digest")
        (fun b => if b = "body" then
            some { conversionId := "c1", status := "completed", downloadUrl := some "u",
                   error := none, secret := none }
          else none)
        7 "body" "whatever"
        { conversions := [{ id := "c1", userId := "u1", status := "processing",
                            errorMessage := none, downloadUrl := none, createdAt := 0,
                            updatedAt := 1, startedAt := some 1, completedAt := none,
                            originalFilename := "a.pdf", fileSize := 9 }],
          analytics := [], credits := { balance := 0, audit := [] } }).1 =
      WebhookResponse.success "c1" "completed" := by
  have h := C10_no_secret_skips_auth (fun _ _ => "digest")
    (fun b => if b = "body" then
        some { conversionId := "c1", status := "completed", downloadUrl := some "u",
               error := none, secret := none }
      else none)
    7 "body" "whatever"
    { conversions := [{ id := "c1", userId := "u1", status := "processing",
                        errorMessage := none, downloadUrl := none, createdAt := 0,
                        updatedAt := 1, startedAt := some 1, completedAt := none,
                        originalFilename := "a.pdf", fileSize := 9 }],
      analytics := [], credits := { balance := 0, audit := [] } }
    { conversionId := "c1", status := "completed", downloadUrl := some "u",
      error := none, secret := none }
    { id := "c1", userId := "u1", status := "processing",
      errorMessage := none, downloadUrl := none, createdAt := 0,
      updatedAt := 1, startedAt := some 1, completedAt := none,
      originalFilename := "a.pdf", fileSize := 9 }
    (by decide) (by decide) (by decide) (by decide)
  exact h.2.1

/-- C5 counterexample: with a secret configured, the signature header
`"abc"` does not match the expected 64-character digest, yet the response
is the catch-all 500 internal error, NOT the 401 `InvalidSignature`
response the claim promises for every non-matching signature value:
`crypto.timingSafeEqual` throws on buffers of different lengths and the
handler's `try/catch` converts the throw into a 500. -/
theorem C5_counterexample :
    webhookPOST (some "sec")
        (fun _ _ => "0000000000000000000000000000000000000000000000000000000000000000")
        (fun _ => none) 0 "body" "abc"
        { conversions := [], analytics := [], credits := { balance := 0, audit := [] } } =
      (WebhookResponse.internalError,
       { conversions := [], analytics := [], credits := { balance := 0, audit := [] } }) ∧
    WebhookResponse.internalError ≠ WebhookResponse.invalidSignature := by
  exact ⟨by decide, by decide⟩

/-- C5 (amended): with a secret configured, signature verification runs on
the raw body before parsing and before any state mutation, and a
non-matching signature is never accepted; an empty signature, or a
non-matching one of the same length as the expected hex digest, is
rejected with the 401 `InvalidSignature` response, but a non-empty
signature of a different length makes `timingSafeEqual` throw, which the
catch-all converts into a 500 internal error instead of a 401. In every
case the state is returned unchanged. -/
theorem C5_signature_rejection
    (sec rawBody signature : String) (hmacHex : String → String → String)
    (parse : String → Option N8NWebhookPayload) (now : Nat) (s : ServerState)
    (hsec : sec ≠ "")
    (hnomatch : signature ≠ hmacHex sec rawBody) :
    (signature = "" ∨ signature.length = (hmacHex sec rawBody).length →
      webhookPOST (some sec) hmacHex parse now rawBody signature s =
        (WebhookResponse.invalidSignature, s)) ∧
    (signature ≠ "" ∧ signature.length ≠ (hmacHex sec rawBody).length →
      webhookPOST (some sec) hmacHex parse now rawBody signature s =
        (WebhookResponse.internalError, s)) ∧
    webhookStatusCode WebhookResponse.invalidSignature = 401 := by
  refine ⟨?_, ?_, rfl⟩
  · rintro (hempty | hlen)
    · simp [webhookPOST, verifyWebhookSignature, hempty]
    · by_cases hempty : signature = ""
      · simp [webhookPOST, verifyWebhookSignature, hempty]
      · have hbeq : (signature == hmacHex sec rawBody) = false := by
          simpa using hnomatch
        simp [webhookPOST, verifyWebhookSignature, timingSafeEqual, hempty, hsec, hlen, hbeq]
  · rintro ⟨hempty, hlen⟩
    simp [webhookPOST, verifyWebhookSignature, timingSafeEqual, hempty, hsec, hlen]

/-- Witness for the amended C5 at a concrete input: a same-length
non-matching signature is rejected with 401 `InvalidSignature` and the
state is untouched. -/
theorem C5_witness :
    webhookPOST (some "sec") (fun _ _ => "aa") (fun _ => none) 0 "body" "bb"
        { conversions := [], analytics := [], credits := { balance := 0, audit := [] } } =
      (WebhookResponse.invalidSignature,
       { conversions := [], analytics := [], credits := { balance := 0, audit := [] } }) :=
  (C5_signature_rejection "sec" "body" "bb" (fun _ _ => "aa") (fun _ => none) 0
      { conversions := [], analytics := [], credits := { balance := 0, audit := [] } }
      (by decide) (by decide)).1 (Or.inr (by decide))

/-- A webhook request whose signature header equals the expected digest
passes verification and the payload-secret check and reaches the
store-mutating tail of the handler. -/
theorem webhookPOST_valid_sig
    (sec rawBody : String) (hmacHex : String → String → String)
    (parse : String → Option N8NWebhookPayload) (now : Nat) (s : ServerState)
    (p : N8NWebhookPayload)
    (hsec : sec ≠ "") (hdig : hmacHex sec rawBody ≠ "")
    (hparse : parse rawBody = some p)
    (hcid : p.conversionId ≠ "") (hst : p.status ≠ "")
    (hpsec : p.secret = some sec) :
    webhookPOST (some sec) hmacHex parse now rawBody (hmacHex sec rawBody) s =
      webhookApplyUpdate p now s := by
  simp [webhookPOST, verifyWebhookSignature, timingSafeEqual, hdig, hsec, hparse,
        hcid, hst, hpsec]

/-- The effect of the store-mutating tail on an existing conversion with a
user: the row is rewritten, one analytics row is appended, 200 returned. -/
theorem webhookApplyUpdate_found
    (p : N8NWebhookPayload) (now : Nat) (s : ServerState) (c : Conversion)
    (hfind : findConversion p.conversionId s.conversions = some c)
    (huser : c.userId ≠ "") :
    webhookApplyUpdate p now s =
      (WebhookResponse.success p.conversionId p.status,
       { s with
         conversions := updateById p.conversionId (applyWebhookUpdate p now) s.conversions,
         analytics := s.analytics ++
           [{ userId := c.userId,
              eventType := if p.status = "completed" then "conversion_success"
                           else "conversion_failed",
              conversionId := some p.conversionId }] }) := by
  simp [webhookApplyUpdate, hfind, huser]

/-- On a `failed` payload the row update stores the reported error message
(with the source's `||` default) and the `failed` status. -/
theorem applyWebhookUpdate_failed (p : N8NWebhookPayload) (now : Nat) (c : Conversion)
    (h : p.status = "failed") :
    (applyWebhookUpdate p now c).status = "failed" ∧
    (applyWebhookUpdate p now c).errorMessage =
      some (jsOr p.error "Conversion failed during processing") := by
  simp [applyWebhookUpdate, h]

/-- C2 counterexample: the conversion `c1` is already terminal (`failed`,
`completed_at = 100`, one analytics row from the first delivery). The
identical webhook (same body, same valid signature) delivered a second
time at time 200 does return 200 success — but it is NOT a no-op: the
analytics table grows from 1 row to 2 and `completed_at` is re-stamped
from 100 to 200, contradicting the claim that the record and the
audit/analytics rows are left unchanged. -/
theorem C2_counterexample :
    (webhookPOST (some "sec") (fun _ _ => "dg")
        (fun b => if b = "body" then
            some { conversionId := "c1", status := "failed", downloadUrl := none,
                   error := some "boom", secret := some "sec" }
          else none)
        200 "body" "dg"
        { conversions := [{ id := "c1", userId := "u", status := "failed",
                            errorMessage := some "boom", downloadUrl := none,
                            createdAt := 0, updatedAt := 100, startedAt := some 10,
                            completedAt := some 100, originalFilename := "f.pdf",
                            fileSize := 5 }],
          analytics := [{ userId := "u", eventType := "conversion_failed",
                          conversionId := some "c1" }],
          credits := { balance := 1, audit := [] } }).1 =
      WebhookResponse.success "c1" "failed" ∧
    (webhookPOST (some "sec") (fun _ _ => "dg")
        (fun b => if b = "body" then
            some { conversionId := "c1", status := "failed", downloadUrl := none,
                   error := some "boom", secret := some "sec" }
          else none)
        200 "body" "dg"
        { conversions := [{ id := "c1", userId := "u", status := "failed",
                            errorMessage := some "boom", downloadUrl := none,
                            createdAt := 0, updatedAt := 100, startedAt := some 10,
                            completedAt := some 100, originalFilename := "f.pdf",
                            fileSize := 5 }],
          analytics := [{ userId := "u", eventType := "conversion_failed",
                          conversionId := some "c1" }],
          credits := { balance := 1, audit := [] } }).2.analytics.length = 2 ∧
    (findConversion "c1"
        (webhookPOST (some "sec") (fun _ _ => "dg")
            (fun b => if b = "body" then
                some { conversionId := "c1", status := "failed", downloadUrl := none,
                       error := some "boom", secret := some "sec" }
              else none)
            200 "body" "dg"
            { conversions := [{ id := "c1", userId := "u", status := "failed",
                                errorMessage := some "boom", downloadUrl := none,
                                createdAt := 0, updatedAt := 100, startedAt := some 10,
                                completedAt := some 100, originalFilename := "f.pdf",
                                fileSize := 5 }],
              analytics := [{ userId := "u", eventType := "conversion_failed",
                              conversionId := some "c1" }],
              credits := { balance := 1, audit := [] } }).2.conversions).map
        Conversion.completedAt = some (some 200) ∧
    some (some (200 : Nat)) ≠ some (some (100 : Nat)) := by
  refine ⟨by decide, by decide, by decide, by decide⟩

/-- C2 (amended): re-delivering the same terminal webhook payload (valid
signature and secret) for a conversion that is already in that terminal
state still returns 200 success and performs no credit refund — the
handler never touches the ledger, so balance and credit audit are
unchanged — but it is not a no-op on the store: it appends one more
analytics row and re-stamps the conversion's `completed_at` (and
`updated_at`) with the delivery time. -/
theorem C2_terminal_redelivery
    (sec rawBody : String) (hmacHex : String → String → String)
    (parse : String → Option N8NWebhookPayload) (now : Nat) (s : ServerState)
    (p : N8NWebhookPayload) (c : Conversion)
    (hsec : sec ≠ "") (hdig : hmacHex sec rawBody ≠ "")
    (hparse : parse rawBody = some p)
    (hterm : p.status = "completed" ∨ p.status = "failed")
    (hcid : p.conversionId ≠ "")
    (hpsec : p.secret = some sec)
    (hfind : findConversion p.conversionId s.conversions = some c)
    (_hcstat : c.status = p.status)
    (huser : c.userId ≠ "") :
    (webhookPOST (some sec) hmacHex parse now rawBody (hmacHex sec rawBody) s).1 =
      WebhookResponse.success p.conversionId p.status ∧
    (webhookPOST (some sec) hmacHex parse now rawBody (hmacHex sec rawBody) s).2.credits =
      s.credits ∧
    (webhookPOST (some sec) hmacHex parse now rawBody
        (hmacHex sec rawBody) s).2.analytics.length = s.analytics.length + 1 ∧
    findConversion p.conversionId
        (webhookPOST (some sec) hmacHex parse now rawBody
          (hmacHex sec rawBody) s).2.conversions = some (applyWebhookUpdate p now c) ∧
    (applyWebhookUpdate p now c).completedAt = some now := by
  have hst : p.status ≠ "" := by
    rcases hterm with h | h <;> simp [h]
  have h1 := webhookPOST_valid_sig sec rawBody hmacHex parse now s p hsec hdig hparse
    hcid hst hpsec
  have h2 := webhookApplyUpdate_found p now s c hfind huser
  rw [h1, h2]
  refine ⟨rfl, rfl, by simp, ?_, applyWebhookUpdate_completedAt p now c⟩
  rw [findConversion_updateById _ _ (applyWebhookUpdate_id p now), hfind]
  rfl

/-- Witness for the amended C2 at the counterexample's concrete input: the
already-`failed` conversion, re-delivered `failed` payload, valid
signature — 200 success, ledger untouched, one more analytics row,
`completed_at` re-stamped to 200. -/
theorem C2_witness :
    (webhookPOST (some "sec") (fun _ _ => "dg")
        (fun b => if b = "body" then
            some { conversionId := "c1", status := "failed", downloadUrl := none,
                   error := some "boom", secret := some "sec" }
          else none)
        200 "body" "dg"
        { conversions := [{ id := "c1", userId := "u", status := "failed",
                            errorMessage := some "boom", downloadUrl := none,
                            createdAt := 0, updatedAt := 100, startedAt := some 10,
                            completedAt := some 100, originalFilename := "f.pdf",
                            fileSize := 5 }],
          analytics := [{ userId := "u", eventType := "conversion_failed",
                          conversionId := some "c1" }],
          credits := { balance := 1, audit := [] } }).2.credits =
      { balance := 1, audit := [] } := by
  have h := C2_terminal_redelivery "sec" "body" (fun _ _ => "dg")
    (fun b => if b = "body" then
        some { conversionId := "c1", status := "failed", downloadUrl := none,
               error := some "boom", secret := some "sec" }
      else none)
    200
    { conversions := [{ id := "c1", userId := "u", status := "failed",
                        errorMessage := some "boom", downloadUrl := none,
                        createdAt := 0, updatedAt := 100, startedAt := some 10,
                        completedAt := some 100, originalFilename := "f.pdf",
                        fileSize := 5 }],
      analytics := [{ userId := "u", eventType := "conversion_failed",
                      conversionId := some "c1" }],
      credits := { balance := 1, audit := [] } }
    { conversionId := "c1", status := "failed", downloadUrl := none,
      error := some "boom", secret := some "sec" }
    { id := "c1", userId := "u", status := "failed",
      errorMessage := some "boom", downloadUrl := none,
      createdAt := 0, updatedAt := 100, startedAt := some 10,
      completedAt := some 100, originalFilename := "f.pdf", fileSize := 5 }
    (by decide) (by decide) (by decide) (Or.inr rfl) (by decide) rfl (by decide) rfl
    (by decide)
  exact h.2.1

/-- C3 counterexample: a valid `failed` callback for the `processing`
conversion `c1` whose owner's balance is 0 (one credit was deducted at
submission). The webhook acknowledges with 200 and moves the conversion
to `failed` with the error stored — but the balance stays 0 and no audit
row is appended: the handler contains no call to the ledger, so the
claimed `adjust(+1, "conversion_failed_refund")` refund never happens. -/
theorem C3_counterexample :
    (webhookPOST (some "sec") (fun _ _ => "dg")
        (fun b => if b = "body" then
            some { conversionId := "c1", status := "failed", downloadUrl := none,
                   error := some "LLM exploded", secret := some "sec" }
          else none)
        50 "body" "dg"
        { conversions := [{ id := "c1", userId := "u", status := "processing",
                            errorMessage := none, downloadUrl := none,
                            createdAt := 0, updatedAt := 10, startedAt := some 10,
                            completedAt := none, originalFilename := "f.pdf",
                            fileSize := 5 }],
          analytics := [],
          credits := { balance := 0,
                       audit := [{ creditDelta := -1, creditsBefore := 1,
                                   creditsAfter := 0,
                                   reason := "conversion_started" }] } }).1 =
      WebhookResponse.success "c1" "failed" ∧
    (findConversion "c1"
        (webhookPOST (some "sec") (fun _ _ => "dg")
            (fun b => if b = "body" then
                some { conversionId := "c1", status := "failed", downloadUrl := none,
                       error := some "LLM exploded", secret := some "sec" }
              else none)
            50 "body" "dg"
            { conversions := [{ id := "c1", userId := "u", status := "processing",
                                errorMessage := none, downloadUrl := none,
                                createdAt := 0, updatedAt := 10, startedAt := some 10,
                                completedAt := none, originalFilename := "f.pdf",
                                fileSize := 5 }],
              analytics := [],
              credits := { balance := 0,
                           audit := [{ creditDelta := -1, creditsBefore := 1,
                                       creditsAfter := 0,
                                       reason := "conversion_started" }] } }).2.conversions).map
        Conversion.status = some "failed" ∧
    (webhookPOST (some "sec") (fun _ _ => "dg")
        (fun b => if b = "body" then
            some { conversionId := "c1", status := "failed", downloadUrl := none,
                   error := some "LLM exploded", secret := some "sec" }
          else none)
        50 "body" "dg"
        { conversions := [{ id := "c1", userId := "u", status := "processing",
                            errorMessage := none, downloadUrl := none,
                            createdAt := 0, updatedAt := 10, startedAt := some 10,
                            completedAt := none, originalFilename := "f.pdf",
                            fileSize := 5 }],
          analytics := [],
          credits := { balance := 0,
                       audit := [{ creditDelta := -1, creditsBefore := 1,
                                   creditsAfter := 0,
                                   reason := "conversion_started" }] } }).2.credits =
      { balance := 0,
        audit := [{ creditDelta := -1, creditsBefore := 1, creditsAfter := 0,
                    reason := "conversion_started" }] } ∧
    (0 : Int) ≠ 1 := by
  refine ⟨by decide, by decide, by decide, by decide⟩

/-- C3 (amended): when the Webhook Ingress applies a valid `failed`
callback to a `processing` conversion, the conversion transitions to
`failed` with the reported error message stored and the handler returns
200 — but no credit is refunded by this path: the ledger state (balance
and audit trail) is returned unchanged. The
`adjust(+1, "conversion_failed_refund")` refund exists only in the
submission route's dispatch-failure path, not in the webhook handler. -/
theorem C3_failed_callback_no_refund
    (sec rawBody m : String) (hmacHex : String → String → String)
    (parse : String → Option N8NWebhookPayload) (now : Nat) (s : ServerState)
    (p : N8NWebhookPayload) (c : Conversion)
    (hsec : sec ≠ "") (hdig : hmacHex sec rawBody ≠ "")
    (hparse : parse rawBody = some p)
    (hfailed : p.status = "failed")
    (hcid : p.conversionId ≠ "")
    (hpsec : p.secret = some sec)
    (herr : p.error = some m) (hm : m ≠ "")
    (hfind : findConversion p.conversionId s.conversions = some c)
    (_hproc : c.status = "processing")
    (huser : c.userId ≠ "") :
    (webhookPOST (some sec) hmacHex parse now rawBody (hmacHex sec rawBody) s).1 =
      WebhookResponse.success p.conversionId "failed" ∧
    findConversion p.conversionId
        (webhookPOST (some sec) hmacHex parse now rawBody
          (hmacHex sec rawBody) s).2.conversions = some (applyWebhookUpdate p now c) ∧
    (applyWebhookUpdate p now c).status = "failed" ∧
    (applyWebhookUpdate p now c).errorMessage = some m ∧
    (webhookPOST (some sec) hmacHex parse now rawBody (hmacHex sec rawBody) s).2.credits =
      s.credits := by
  have hst : p.status ≠ "" := by simp [hfailed]
  have h1 := webhookPOST_valid_sig sec rawBody hmacHex parse now s p hsec hdig hparse
    hcid hst hpsec
  have h2 := webhookApplyUpdate_found p now s c hfind huser
  have h3 := applyWebhookUpdate_failed p now c hfailed
  rw [h1, h2]
  refine ⟨by rw [hfailed], ?_, h3.1, ?_, rfl⟩
  · rw [findConversion_updateById _ _ (applyWebhookUpdate_id p now), hfind]
    rfl
  · rw [h3.2, herr]
    simp [jsOr, hm]

/-- Witness for the amended C3 at the counterexample's concrete input:
valid failed callback → 200, conversion `failed` with the error stored,
ledger untouched. -/
theorem C3_witness :
    (webhookPOST (some "sec") (fun _ _ => "dg")
        (fun b => if b = "body" then
            some { conversionId := "c1", status := "failed", downloadUrl := none,
                   error := some "LLM exploded", secret := some "sec" }
          else none)
        50 "body" "dg"
        { conversions := [{ id := "c1", userId := "u", status := "processing",
                            errorMessage := none, downloadUrl := none,
                            createdAt := 0, updatedAt := 10, startedAt := some 10,
                            completedAt := none, originalFilename := "f.pdf",
                            fileSize := 5 }],
          analytics := [],
          credits := { balance := 0, audit := [] } }).2.credits =
      { balance := 0, audit := [] } := by
  have h := C3_failed_callback_no_refund "sec" "body" "LLM exploded" (fun _ _ => "dg")
    (fun b => if b = "body" then
        some { conversionId := "c1", status := "failed", downloadUrl := none,
               error := some "LLM exploded", secret := some "sec" }
      else none)
    50
    { conversions := [{ id := "c1", userId := "u", status := "processing",
                        errorMessage := none, downloadUrl := none,
                        createdAt := 0, updatedAt := 10, startedAt := some 10,
                        completedAt := none, originalFilename := "f.pdf",
                        fileSize := 5 }],
      analytics := [],
      credits := { balance := 0, audit := [] } }
    { conversionId := "c1", status := "failed", downloadUrl := none,
      error := some "LLM exploded", secret := some "sec" }
    { id := "c1", userId := "u", status := "processing",
      errorMessage := none, downloadUrl := none, createdAt := 0,
      updatedAt := 10, startedAt := some 10, completedAt := none,
      originalFilename := "f.pdf", fileSize := 5 }
    (by decide) (by decide) (by decide) rfl (by decide) rfl rfl (by decide) rfl rfl
    (by decide)
  exact h.2.2.2.2

/-! ## Claims about submission and retry -/

/-- C6: when the external dispatch fails during submission (unreachable or
non-2xx), within the same request the conversion record is moved to
`failed` with an error message stored, and exactly one credit is refunded:
the final balance equals the pre-submission balance, with the audit trail
extended by exactly the `-1 conversion_started` deduction and the
`+1 conversion_failed_refund` refund. -/
theorem C6_dispatch_failure_round_trip
    (dispatchErrMsg userId fileName convId : String) (fileSize now : Nat) (s : ServerState)
    (hbal : 0 < s.credits.balance)
    (hfresh : findConversion convId s.conversions = none) :
    (convertPOST true false dispatchErrMsg userId fileName fileSize convId now s).1 =
      ConvertResponse.processingFailed ∧
    (findConversion convId
        (convertPOST true false dispatchErrMsg userId fileName fileSize convId
          now s).2.conversions).map Conversion.status = some "failed" ∧
    (findConversion convId
        (convertPOST true false dispatchErrMsg userId fileName fileSize convId
          now s).2.conversions).map Conversion.errorMessage =
      some (some ("Failed to start processing: " ++ dispatchErrMsg)) ∧
    (convertPOST true false dispatchErrMsg userId fileName fileSize convId
        now s).2.credits.balance = s.credits.balance ∧
    (convertPOST true false dispatchErrMsg userId fileName fileSize convId
        now s).2.credits.audit =
      s.credits.audit ++
        [{ creditDelta := -1, creditsBefore := s.credits.balance,
           creditsAfter := s.credits.balance - 1, reason := "conversion_started" },
         { creditDelta := 1, creditsBefore := s.credits.balance - 1,
           creditsAfter := s.credits.balance, reason := "conversion_failed_refund" }] := by
  have h1 : ¬ ((-1 : Int) < 0 ∧ s.credits.balance + -1 < 0) := by
    rintro ⟨-, h⟩
    omega
  have e1 := adjust_ok (-1) "conversion_started" s.credits h1
  rw [newCreditsOf_of_nonneg _ _ (by omega)] at e1
  have h2 : ¬ ((1 : Int) < 0 ∧ s.credits.balance + -1 + 1 < 0) := by
    rintro ⟨h, -⟩
    omega
  have e2 := adjust_ok 1 "conversion_failed_refund"
    { balance := s.credits.balance + -1,
      audit := s.credits.audit ++
        [{ creditDelta := -1, creditsBefore := s.credits.balance,
           creditsAfter := s.credits.balance + -1, reason := "conversion_started" }] }
    (by exact h2)
  rw [newCreditsOf_of_nonneg _ _ (by simp; omega)] at e2
  have hb1 : s.credits.balance + -1 + 1 = s.credits.balance := by omega
  rw [hb1] at e2
  have hnotmem : ∀ c ∈ s.conversions, ¬ c.id = convId := by
    have := List.find?_eq_none.mp hfresh
    intro c hc
    simpa using this c hc
  have hupd : ∀ (f : Conversion → Conversion) (conv : Conversion), conv.id = convId →
      updateById convId f (s.conversions ++ [conv]) = s.conversions ++ [f conv] := by
    intro f conv hid
    rw [updateById_append, updateById_of_forall_ne _ _ _ hnotmem]
    simp [updateById, hid]
  simp only [convertPOST]
  rw [if_neg (not_not_intro hbal)]
  simp only [adjust] at e1 e2 ⊢
  rw [show ({ s with
        conversions := s.conversions ++
          [{ id := convId, userId := userId, status := "pending", errorMessage := none,
             downloadUrl := none, createdAt := now, updatedAt := now, startedAt := none,
             completedAt := none, originalFilename := fileName,
             fileSize := fileSize }],
        analytics := s.analytics ++
          [{ userId := userId, eventType := "conversion_start",
             conversionId := some convId }] } : ServerState).credits = s.credits from rfl]
  rw [e1]
  simp only [if_false, Bool.false_eq_true, ite_false, ite_true]
  rw [e2]
  refine ⟨rfl, ?_, ?_, by simp [sub_eq_add_neg], by simp [sub_eq_add_neg]⟩ <;>
  · dsimp only
    rw [hupd _ _ rfl, findConversion_append _ _ _ hfresh]
    simp [findConversion, markDispatchFailed]

/-- Witness for C6 at a concrete input: user with 1 credit submits, the
dispatch fetch throws — the response is the 500 `PROCESSING_FAILED`, the
record is `failed`, and the balance is back to 1 with the two audit
rows. -/
theorem C6_witness :
    (convertPOST true false "fetch failed" "u" "f.pdf" 5 "c1" 9
        { conversions := [], analytics := [],
          credits := { balance := 1, audit := [] } }).2.credits.balance = 1 ∧
    (convertPOST true false "fetch failed" "u" "f.pdf" 5 "c1" 9
        { conversions := [], analytics := [],
          credits := { balance := 1, audit := [] } }).1 =
      ConvertResponse.processingFailed := by
  have h := C6_dispatch_failure_round_trip "fetch failed" "u" "f.pdf" "c1" 5 9
    { conversions := [], analytics := [], credits := { balance := 1, audit := [] } }
    (by decide) rfl
  exact ⟨h.2.2.2.1, h.1⟩

/-- C7: `retryConversion` succeeds only for a `failed` conversion whose
owner has at least one credit; with a zero (or negative-coalesced)
balance it errors with insufficient credits; and a successful retry resets
the row to `pending`, clears the error message, and leaves the credit
ledger completely untouched (no deduction). -/
theorem C7_retryConversion
    (id : String) (now : Nat) (s : ServerState) (c : Conversion)
    (hfind : findConversion id s.conversions = some c) :
    (∀ c2 s2, retryConversion id now s = (Except.ok c2, s2) →
        c.status = "failed" ∧ 1 ≤ s.credits.balance ∧
        c2.status = "pending" ∧ c2.errorMessage = none ∧ s2.credits = s.credits) ∧
    (c.status = "failed" → c.userId ≠ "" → s.credits.balance < 1 →
        retryConversion id now s = (Except.error RetryError.insufficientCredits, s)) ∧
    (c.status = "failed" → c.userId ≠ "" → 1 ≤ s.credits.balance →
        retryConversion id now s =
          (Except.ok (markRetried now c),
           { s with conversions := updateById id (markRetried now) s.conversions })) := by
  refine ⟨?_, ?_, ?_⟩
  · intro c2 s2 h
    simp only [retryConversion, hfind] at h
    by_cases h1 : c.status = "failed"
    · by_cases h2 : c.userId = ""
      · simp [h1, h2] at h
      · by_cases h3 : s.credits.balance < 1
        · simp [h1, h2, h3] at h
        · simp only [h1, h2, h3, ne_eq, not_true_eq_false, not_false_eq_true,
            if_false, if_true, ite_false, ite_true] at h
          rw [Prod.mk.injEq] at h
          obtain ⟨hc2, hs2⟩ := h
          rw [Except.ok.injEq] at hc2
          refine ⟨h1, by omega, ?_, ?_, ?_⟩
          · rw [← hc2]
            rfl
          · rw [← hc2]
            rfl
          · rw [← hs2]
    · simp [h1] at h
  · intro h1 h2 h3
    simp [retryConversion, hfind, h1, h2, h3]
  · intro h1 h2 h3
    have h3n : ¬ s.credits.balance < 1 := by omega
    simp [retryConversion, hfind, h1, h2, h3n]

/-- Witness for C7 at a concrete input: a `failed` conversion whose owner
has exactly 1 credit is retried successfully — the row is reset to
`pending` with the error cleared and the ledger untouched. -/
theorem C7_witness :
    retryConversion "c1" 99
        { conversions := [{ id := "c1", userId := "u", status := "failed",
                            errorMessage := some "boom", downloadUrl := none,
                            createdAt := 0, updatedAt := 50, startedAt := some 10,
                            completedAt := some 50, originalFilename := "f.pdf",
                            fileSize := 5 }],
          analytics := [], credits := { balance := 1, audit := [] } } =
      (Except.ok (markRetried 99
          { id := "c1", userId := "u", status := "failed",
            errorMessage := some "boom", downloadUrl := none,
            createdAt := 0, updatedAt := 50, startedAt := some 10,
            completedAt := some 50, originalFilename := "f.pdf", fileSize := 5 }),
       { conversions :=
           updateById "c1" (markRetried 99)
             [{ id := "c1", userId := "u", status := "failed",
                errorMessage := some "boom", downloadUrl := none,
                createdAt := 0, updatedAt := 50, startedAt := some 10,
                completedAt := some 50, originalFilename := "f.pdf", fileSize := 5 }],
         analytics := [], credits := { balance := 1, audit := [] } }) :=
  (C7_retryConversion "c1" 99
      { conversions := [{ id := "c1", userId := "u", status := "failed",
                          errorMessage := some "boom", downloadUrl := none,
                          createdAt := 0, updatedAt := 50, startedAt := some 10,
                          completedAt := some 50, originalFilename := "f.pdf",
                          fileSize := 5 }],
        analytics := [], credits := { balance := 1, audit := [] } }
      { id := "c1", userId := "u", status := "failed",
        errorMessage := some "boom", downloadUrl := none,
        createdAt := 0, updatedAt := 50, startedAt := some 10,
        completedAt := some 50, originalFilename := "f.pdf", fileSize := 5 }
      rfl).2.2 rfl (by decide) (by decide)

/-! ## Claims about the progress estimator -/

/-- The estimated total of the single-status endpoint is positive (it is
clamped to at least 30000 ms). -/
theorem estimatedTotal1_pos (logTerm : ℚ) : 0 < estimatedTotal1 logTerm :=
  lt_of_lt_of_le (by norm_num) (le_max_left _ _)

/-- The estimated total of the batch-status endpoint is positive. -/
theorem estimatedTotal2_pos (fileSize : ℚ) : 0 < estimatedTotal2 fileSize :=
  lt_of_lt_of_le (by norm_num) (le_max_left _ _)

/-- C8: for a fixed file size (hence fixed estimated total), the progress
value of both status endpoints is a pure function of the elapsed time
that is monotone non-decreasing in it, and is strictly below 100 for every
input while the status is `processing` (the single endpoint caps the
ratio at 0.95 before flooring, the batch endpoint clamps at 95 before
rounding; 100 is produced only by the terminal `completed` branch). -/
theorem C8_progress_estimator
    (logTerm fileSize e1 e2 e : ℚ) (h : e1 ≤ e2) :
    progress1 e1 logTerm ≤ progress1 e2 logTerm ∧
    progress1 e logTerm < 100 ∧
    progress2 e1 fileSize ≤ progress2 e2 fileSize ∧
    progress2 e fileSize < 100 := by
  have hT1 : 0 < estimatedTotal1 logTerm := estimatedTotal1_pos logTerm
  have hT2 : 0 < estimatedTotal2 fileSize := estimatedTotal2_pos fileSize
  refine ⟨?_, ?_, ?_, ?_⟩
  · have hdiv : e1 / estimatedTotal1 logTerm ≤ e2 / estimatedTotal1 logTerm := by
      gcongr
    have hmin : min (e1 / estimatedTotal1 logTerm) (95 / 100) ≤
        min (e2 / estimatedTotal1 logTerm) (95 / 100) := min_le_min hdiv le_rfl
    exact Int.floor_le_floor (mul_le_mul_of_nonneg_right hmin (by norm_num))
  · rw [progress1, Int.floor_lt]
    have hr : min (e / estimatedTotal1 logTerm) (95 / 100) ≤ 95 / 100 :=
      min_le_right _ _
    push_cast
    nlinarith
  · have hdiv : e1 / estimatedTotal2 fileSize ≤ e2 / estimatedTotal2 fileSize := by
      gcongr
    rw [progress2, progress2, round_eq, round_eq]
    refine Int.floor_le_floor ?_
    have : max 10 (e1 / estimatedTotal2 fileSize * 80 + 10) ≤
        max 10 (e2 / estimatedTotal2 fileSize * 80 + 10) := by
      refine max_le_max le_rfl ?_
      nlinarith
    have hmin : min 95 (max 10 (e1 / estimatedTotal2 fileSize * 80 + 10)) ≤
        min 95 (max 10 (e2 / estimatedTotal2 fileSize * 80 + 10)) :=
      min_le_min le_rfl this
    linarith
  · rw [progress2, round_eq, Int.floor_lt]
    have hr : min 95 (max 10 (e / estimatedTotal2 fileSize * 80 + 10)) ≤ 95 :=
      min_le_left _ _
    push_cast
    nlinarith

/-- Witness for C8 at concrete inputs: a 2 MB file
(`logTerm = log10(3) * 15000 ≈ 7157`, `fileSize = 2000000`) at elapsed
times 10000 ms ≤ 20000 ms. -/
theorem C8_witness :
    progress1 10000 7157 ≤ progress1 20000 7157 ∧
    progress1 20000 7157 < 100 ∧
    progress2 10000 2000000 ≤ progress2 20000 2000000 ∧
    progress2 20000 2000000 < 100 := by
  have h := C8_progress_estimator 7157 2000000 10000 20000 20000 (by norm_num)
  exact h

/-! ## Claims about the polling coordinator -/

/-- `stopPolling` with an id always removes exactly that id from the
active set, in both branches. -/
theorem stopPolling_some_active (id : String) (s : PollState) :
    (stopPolling (some id) s).activePolling = s.activePolling.erase id := by
  unfold stopPolling
  dsimp only
  split <;> rfl

/-- `stopPolling` establishes the teardown invariant on its output: if the
set it leaves behind is empty, the manager it leaves behind is `none`. -/
theorem stopPolling_empty_manager (t : Option String) (s : PollState)
    (h : (stopPolling t s).activePolling = ∅) :
    (stopPolling t s).pollingManager = none := by
  unfold stopPolling at h ⊢
  by_cases hc : (match t with
      | some id => s.activePolling.erase id
      | none => (∅ : Finset String)) = ∅ ∧ s.pollingManager ≠ none
  · rw [if_pos hc] at h ⊢
  · rw [if_neg hc] at h ⊢
    by_cases hm : s.pollingManager = none
    · exact hm
    · exact absurd ⟨h, hm⟩ hc

/-- The active set only shrinks along the refresh fold. -/
theorem refreshFold_active_subset (l : List (String × String)) (s : PollState) :
    (l.foldl (fun st c => if isTerminal c.2 then stopPolling (some c.1) st else st)
        s).activePolling ⊆ s.activePolling := by
  induction l generalizing s with
  | nil => exact fun a ha => ha
  | cons x xs ih =>
    refine subset_trans (ih _) ?_
    by_cases hx : isTerminal x.2
    · simp only [List.foldl_cons, hx, if_true, stopPolling_some_active]
      exact Finset.erase_subset _ _
    · simp only [List.foldl_cons, hx, if_false]
      exact fun a ha => ha

/-- Every terminal snapshot in the fetched list has been removed from the
active set by the end of the refresh fold. -/
theorem refreshFold_not_mem (l : List (String × String)) (s : PollState)
    (id st : String) (hmem : (id, st) ∈ l) (hterm : isTerminal st = true) :
    id ∉ (l.foldl (fun st c => if isTerminal c.2 then stopPolling (some c.1) st else st)
        s).activePolling := by
  induction l generalizing s with
  | nil => cases hmem
  | cons x xs ih =>
    rcases List.mem_cons.mp hmem with hx | hx
    · subst hx
      simp only [List.foldl_cons, hterm, if_true]
      intro hcontra
      have := refreshFold_active_subset xs (stopPolling (some id) s) hcontra
      rw [stopPolling_some_active] at this
      exact Finset.not_mem_erase id s.activePolling this
    · exact ih _ hx

/-- The teardown invariant is preserved along the refresh fold. -/
theorem refreshFold_inv (l : List (String × String)) (s : PollState)
    (h : s.activePolling = ∅ → s.pollingManager = none) :
    (l.foldl (fun st c => if isTerminal c.2 then stopPolling (some c.1) st else st)
        s).activePolling = ∅ →
    (l.foldl (fun st c => if isTerminal c.2 then stopPolling (some c.1) st else st)
        s).pollingManager = none := by
  induction l generalizing s with
  | nil => exact h
  | cons x xs ih =>
    simp only [List.foldl_cons]
    by_cases hx : isTerminal x.2
    · rw [if_pos hx]
      exact ih _ (stopPolling_empty_manager (some x.1) s)
    · rw [if_neg hx]
      exact ih _ h

/-- C9 counterexample: the claimed invariant "the timer is never live while
the active set is empty" is violated by `removeConversion`: after
`startPolling(["a"])` installs timer 7, `removeConversion("a")` empties
the active set but leaves the interval running — `removeConversion`
deletes the id from `activePolling` without the teardown check that
`stopPolling` performs. -/
theorem C9_counterexample :
    (removeConversion "a"
        (startPolling ["a"] 7
          { activePolling := ∅, pollingManager := none })).activePolling = ∅ ∧
    (removeConversion "a"
        (startPolling ["a"] 7
          { activePolling := ∅, pollingManager := none })).pollingManager = some 7 := by
  constructor
  · decide
  · rfl

/-- C9 (amended): during `refreshActiveConversions` (active set non-empty,
throttle not hit), every fetched snapshot reporting `completed` or
`failed` has its id removed from the active polling set via `stopPolling`,
and the resulting state satisfies "set empty → timer cleared";
`stopPolling` itself always clears the timer when it leaves an empty set.
The invariant is NOT global, however: `removeConversion` (and
`startPolling` with an empty id list) can leave the timer live with an
empty active set, as the counterexample shows. -/
theorem C9_polling_termination
    (fetched : List (String × String)) (s : PollState)
    (hne : s.activePolling ≠ ∅)
    (id st : String) (hmem : (id, st) ∈ fetched) (hterm : isTerminal st = true) :
    id ∉ (refreshActiveConversions fetched false s).activePolling ∧
    ((refreshActiveConversions fetched false s).activePolling = ∅ →
      (refreshActiveConversions fetched false s).pollingManager = none) ∧
    (∀ (t : Option String) (s2 : PollState),
      (stopPolling t s2).activePolling = ∅ → (stopPolling t s2).pollingManager = none) := by
  have hred : refreshActiveConversions fetched false s =
      fetched.foldl (fun st c => if isTerminal c.2 then stopPolling (some c.1) st else st) s := by
    simp [refreshActiveConversions, hne]
  refine ⟨?_, ?_, stopPolling_empty_manager⟩
  · rw [hred]
    exact refreshFold_not_mem fetched s id st hmem hterm
  · rw [hred]
    exact refreshFold_inv fetched s (fun hempty => absurd hempty hne)

/-- Witness for the amended C9 at a concrete input: polling `a` and `b`
with timer 3, the fetch reports `a` completed and `b` failed — both ids
leave the active set, the set becomes empty, and the timer is cleared. -/
theorem C9_witness :
    "a" ∉ (refreshActiveConversions [("a", "completed"), ("b", "failed")] false
        { activePolling := {"a", "b"}, pollingManager := some 3 }).activePolling ∧
    ((refreshActiveConversions [("a", "completed"), ("b", "failed")] false
        { activePolling := {"a", "b"}, pollingManager := some 3 }).activePolling = ∅ →
      (refreshActiveConversions [("a", "completed"), ("b", "failed")] false
        { activePolling := {"a", "b"}, pollingManager := some 3 }).pollingManager = none) := by
  have h := C9_polling_termination [("a", "completed"), ("b", "failed")]
    { activePolling := {"a", "b"}, pollingManager := some 3 }
    (by decide) "a" "completed" (by simp) (by decide)
  exact ⟨h.1, h.2.1⟩
